import Mathlib

/-!
# Verification of the chunked-generation coordinator

Shallow embedding of `chunked_generator/coordinator.py` (class `ChunkCoordinator`)
together with the record types it manipulates (`ChunkStatus`, `ChunkResult`,
`ChunkDefinition` from `analyzer.py`).  The external generation capability
(the `qodo` subprocess) is modelled as an oracle `ChunkDefinition → ExecOutcome`;
file contents and wall-clock time are not modelled (the corresponding record
fields are kept, with times set to 0), which does not affect any scheduling,
retry, skip or persistence behaviour proved below.
-/

set_option autoImplicit false

namespace ChunkedGen

/-- `ChunkStatus` enum from `coordinator.py` (lines 20-25). -/
inductive ChunkStatus
  | pending
  | in_progress
  | completed
  | failed
  | skipped
deriving DecidableEq, Repr

/-- The string value each enum member is declared with (coordinator.py lines
21-25) — Python's `.value` attribute of the member. -/
def ChunkStatus.value : ChunkStatus → String
  | .pending => "pending"
  | .in_progress => "in_progress"
  | .completed => "completed"
  | .failed => "failed"
  | .skipped => "skipped"

/-- `ChunkDefinition` dataclass from `analyzer.py` (lines 30-41). -/
structure ChunkDefinition where
  chunk_id : String
  chunk_name : String
  description : String
  dependencies : List String
  estimated_lines : Nat
  priority : Int
  complexity : String
  files_to_generate : List String
  interfaces : List (String × String)
  technologies : List String
deriving DecidableEq, Repr

/-- `ChunkResult` dataclass from `coordinator.py` (lines 28-36). -/
structure ChunkResult where
  chunk_id : String
  status : ChunkStatus
  files_generated : List String
  lines_generated : Nat
  generation_time : Nat
  error_message : Option String := none
  retry_count : Nat := 0
deriving DecidableEq, Repr

/-- Outcome of one invocation of the external generation capability
(the `subprocess.run` of `qodo` in `_execute_chunk_generation`):
either the process exits with code 0 and the walk of the chunk directory
finds `files`, or it exits nonzero / times out / raises. -/
inductive ExecOutcome
  | deposited (files : List String)
  | failedRun
deriving DecidableEq, Repr

/-- The mutable `state.chunk_results` dict.  Python initialises every chunk id
to a PENDING result before the scheduler runs, so a total map with that
default is observationally equivalent on every lookup the code performs. -/
abbrev ResultMap := String → ChunkResult

/-- `state.chunk_results[id] = r` (dict assignment). -/
def ResultMap.set (m : ResultMap) (id : String) (r : ChunkResult) : ResultMap :=
  fun x => if x = id then r else m x

/-- The PENDING `ChunkResult` created for each chunk by `_create_initial_state`
(coordinator.py lines 128-136). -/
def initialResult (id : String) : ChunkResult :=
  { chunk_id := id, status := .pending, files_generated := [],
    lines_generated := 0, generation_time := 0 }

/-- The initial `chunk_results` mapping of `_create_initial_state`. -/
def initialResults : ResultMap := fun id => initialResult id

/-- The fields of `GenerationState` that the scheduling logic touches:
the results dict and `current_chunk`. -/
structure GenState where
  results : ResultMap
  current_chunk : Option String

/-- Python's `file_spec.endswith('/')` — the file spec's last character is
`/`, marking a directory entry. -/
def endsWithSlash (f : String) : Bool := f.data.getLast? == some '/'

/-- `_fallback_chunk_generation` (coordinator.py lines 361-384): one stub file
is written per entry of `files_to_generate` that is not a directory
(does not end in `/`); directory entries only create directories and add
nothing to the returned list.  The returned paths are
`os.path.join(chunk_dir, file_spec)`, with `chunk_dir = output_dir/chunk_id`. -/
def fallback_chunk_generation (chunk : ChunkDefinition) : List String :=
  (chunk.files_to_generate.filter (fun f => !endsWithSlash f)).map
    (fun f => chunk.chunk_id ++ "/" ++ f)

/-- `_execute_chunk_generation` (coordinator.py lines 312-359): on nonzero
exit code, timeout or exception the fallback runs; on a zero exit code the
files found under the chunk directory are returned as they are — the
fallback is NOT consulted, even when that list is empty. -/
def execute_chunk_generation (exec : ChunkDefinition → ExecOutcome)
    (chunk : ChunkDefinition) : List String :=
  match exec chunk with
  | .failedRun => fallback_chunk_generation chunk
  | .deposited files => files

/-- `_generate_single_chunk` (coordinator.py lines 219-265): runs generation,
then `_validate_chunk`, which raises `"No files generated for chunk …"` on an
empty file list; the surrounding `try` turns that into a FAILED result.
Otherwise the chunk is COMPLETED with the generated files.
Either way the returned `ChunkResult` is freshly constructed, so its
`retry_count` is the dataclass default 0. -/
def generate_single_chunk (exec : ChunkDefinition → ExecOutcome)
    (chunk : ChunkDefinition) : ChunkResult :=
  if (execute_chunk_generation exec chunk).isEmpty then
    { chunk_id := chunk.chunk_id, status := .failed, files_generated := [],
      lines_generated := 0, generation_time := 0,
      error_message := some ("No files generated for chunk " ++ chunk.chunk_id) }
  else
    { chunk_id := chunk.chunk_id, status := .completed,
      files_generated := execute_chunk_generation exec chunk,
      lines_generated := 0, generation_time := 0 }

/-- The reduced complexity used by `_attempt_chunk_recovery` (line 713):
`"medium" if chunk.complexity == "high" else "low"`. -/
def reduceComplexity (c : String) : String :=
  if c = "high" then "medium" else "low"

/-- The `simplified_chunk` built by `_attempt_chunk_recovery`
(coordinator.py lines 706-717). -/
def simplify_chunk (chunk : ChunkDefinition) : ChunkDefinition :=
  { chunk with
    description := "Simplified " ++ chunk.description,
    estimated_lines := chunk.estimated_lines / 2,
    complexity := reduceComplexity chunk.complexity,
    files_to_generate := chunk.files_to_generate.take 2 }

/-- `_attempt_chunk_recovery` (coordinator.py lines 692-726).  Returns the
updated results dict and the boolean the caller branches on.  The stored
result's `retry_count` is incremented in place, but the freshly generated
`new_result` (with default `retry_count = 0`) then overwrites the same dict
slot. -/
def attempt_chunk_recovery (exec : ChunkDefinition → ExecOutcome)
    (st : ResultMap) (chunk : ChunkDefinition) : ResultMap × Bool :=
  let result := st chunk.chunk_id
  if result.retry_count ≥ 2 then (st, false)
  else
    let st1 := st.set chunk.chunk_id { result with retry_count := result.retry_count + 1 }
    let newResult := generate_single_chunk exec (simplify_chunk chunk)
    let st2 := st1.set chunk.chunk_id newResult
    (st2, newResult.status == .completed)

/-- `_skip_dependent_chunks` (coordinator.py lines 728-738): every chunk whose
`dependencies` list DIRECTLY contains the failed chunk's id and whose stored
status is PENDING has its status set to SKIPPED. -/
def skip_dependent_chunks (st : ResultMap) (failedId : String)
    (allChunks : List ChunkDefinition) : ResultMap :=
  allChunks.foldl
    (fun m c =>
      if failedId ∈ c.dependencies ∧ (m c.chunk_id).status = .pending then
        m.set c.chunk_id { m c.chunk_id with status := .skipped }
      else m)
    st

/-- The ready-set computation of `_generate_chunks_ordered`
(coordinator.py lines 160-164): chunks not in `completed_chunks` whose
dependencies are all in `completed_chunks`, in declaration order. -/
def ready_chunks (chunks : List ChunkDefinition) (done : List String) :
    List ChunkDefinition :=
  chunks.filter (fun c => c.chunk_id ∉ done ∧ ∀ d ∈ c.dependencies, d ∈ done)

/-- `completed_chunks.add(id)` — `completed_chunks` is a Python set. -/
def addDone (done : List String) (id : String) : List String :=
  if id ∈ done then done else done ++ [id]

/-- `_generate_chunk_batch` (coordinator.py lines 188-217): each batch chunk is
generated and its fresh result stored under its id; `current_chunk` is set to
the id of the chunk being generated (`_generate_single_chunk`, line 224). -/
def run_batch (exec : ChunkDefinition → ExecOutcome) (st : GenState)
    (batch : List ChunkDefinition) : GenState :=
  batch.foldl
    (fun s c =>
      { results := s.results.set c.chunk_id (generate_single_chunk exec c),
        current_chunk := some c.chunk_id })
    st

/-- One step of the `for chunk in batch_chunks` loop of
`_generate_chunks_ordered` (coordinator.py lines 176-186): COMPLETED chunks
are marked done; FAILED chunks go through recovery and, if recovery fails,
through `_skip_dependent_chunks` — and are marked done in either case. -/
def process_result (exec : ChunkDefinition → ExecOutcome)
    (allChunks : List ChunkDefinition) (acc : List String × ResultMap)
    (c : ChunkDefinition) : List String × ResultMap :=
  if ((acc.2) c.chunk_id).status = .completed then
    (addDone acc.1 c.chunk_id, acc.2)
  else if ((acc.2) c.chunk_id).status = .failed then
    if (attempt_chunk_recovery exec acc.2 c).2 then
      (addDone acc.1 c.chunk_id, (attempt_chunk_recovery exec acc.2 c).1)
    else
      (addDone acc.1 c.chunk_id,
        skip_dependent_chunks (attempt_chunk_recovery exec acc.2 c).1 c.chunk_id allChunks)
  else acc

/-- The whole post-batch bookkeeping loop of `_generate_chunks_ordered`. -/
def process_batch (exec : ChunkDefinition → ExecOutcome)
    (allChunks : List ChunkDefinition) (batch : List ChunkDefinition)
    (acc : List String × ResultMap) : List String × ResultMap :=
  batch.foldl (process_result exec allChunks) acc

/-- Message of the exception raised at coordinator.py line 167. -/
def circular_dependency_message : String := "Circular dependency detected in chunks"

/-- Result of running the `while` loop of `_generate_chunks_ordered`:
normal exit, the circular-dependency exception, or fuel exhaustion
(the model's stand-in for an infinite loop, which cannot occur with fuel
`chunks.length` when chunk ids are distinct). -/
inductive RunOutcome
  | finished (st : GenState)
  | cyclic (st : GenState)
  | fuelOut (st : GenState)

/-- The run state carried by a `RunOutcome`, whichever constructor it is. -/
def RunOutcome.state : RunOutcome → GenState
  | .finished st => st
  | .cyclic st => st
  | .fuelOut st => st

/-- Whether the loop raised the circular-dependency exception. -/
def RunOutcome.isCyclic : RunOutcome → Bool
  | .cyclic _ => true
  | _ => false

/-- Whether the model ran out of fuel. -/
def RunOutcome.isFuelOut : RunOutcome → Bool
  | .fuelOut _ => true
  | _ => false

/-- The `while len(completed_chunks) < len(analysis.chunks)` loop of
`_generate_chunks_ordered` (coordinator.py lines 150-186), with explicit
fuel.  Each iteration: compute the ready set; raise on empty; take the first
`maxParallel` ready chunks as the batch (`ready_chunks[:batch_size]`, line
171 — no sorting of any kind); run the batch; then run the post-batch
bookkeeping. -/
def generate_chunks_ordered (exec : ChunkDefinition → ExecOutcome)
    (maxParallel : Nat) (chunks : List ChunkDefinition) :
    Nat → List String → GenState → RunOutcome
  | 0, done, st =>
    if done.length < chunks.length then .fuelOut st else .finished st
  | fuel + 1, done, st =>
    if done.length < chunks.length then
      if (ready_chunks chunks done).isEmpty then .cyclic st
      else
        generate_chunks_ordered exec maxParallel chunks fuel
          (process_batch exec chunks ((ready_chunks chunks done).take maxParallel)
            (done,
              (run_batch exec st ((ready_chunks chunks done).take maxParallel)).results)).1
          { results :=
              (process_batch exec chunks ((ready_chunks chunks done).take maxParallel)
                (done,
                  (run_batch exec st
                    ((ready_chunks chunks done).take maxParallel)).results)).2,
            current_chunk :=
              (run_batch exec st
                ((ready_chunks chunks done).take maxParallel)).current_chunk }
    else .finished st

/-- Default of the `max_parallel` parameter of `ChunkCoordinator.__init__`
(coordinator.py line 55). -/
def max_parallel_default : Nat := 3

/-- The fresh `GenerationState` built by `_create_initial_state`: every chunk's
result PENDING, `current_chunk = None`. -/
def initState : GenState := { results := initialResults, current_chunk := none }

/-- The FAILED `ChunkResult` recorded by `generate_project`'s `except` handler
(coordinator.py lines 110-117) under `state.current_chunk or "unknown"`. -/
def exception_result (key : String) : ChunkResult :=
  { chunk_id := key, status := .failed, files_generated := [],
    lines_generated := 0, generation_time := 0,
    error_message := some circular_dependency_message }

/-- `generate_project` (coordinator.py lines 64-121), fresh-run path: build the
initial state, run `_generate_chunks_ordered`, and catch any exception —
recording a FAILED `ChunkResult` under `state.current_chunk or "unknown"`
with the exception text as `error_message` — then return the state to the
caller (the exception is never re-raised). -/
def generate_project (exec : ChunkDefinition → ExecOutcome) (maxParallel : Nat)
    (chunks : List ChunkDefinition) : GenState :=
  match generate_chunks_ordered exec maxParallel chunks chunks.length [] initState with
  | .finished st => st
  | .fuelOut st => st
  | .cyclic st =>
    { st with
      results := st.results.set (st.current_chunk.getD "unknown")
        (exception_result (st.current_chunk.getD "unknown")) }

/-- Terminal statuses per the state machine (spec §4.4): COMPLETED, FAILED,
SKIPPED. -/
def ChunkStatus.isTerminal (s : ChunkStatus) : Prop :=
  s = .completed ∨ s = .failed ∨ s = .skipped

/-! ## Persistence (`_save_state` / `_load_state`)

`_save_state` (coordinator.py lines 758-779) first calls `asdict(state)`
(line 762).  `dataclasses.asdict` recurses into every container reachable
from the state, so each `ChunkResult` stored in the `chunk_results` dict is
itself converted to a plain dict (enum members are not translated — they are
deep-copied as enum members).  The per-entry loop at lines 771-773 then calls
`asdict(result)` on each value of that ALREADY-CONVERTED mapping; `asdict`
raises `TypeError("asdict() should be called on dataclass instances")` on a
non-dataclass argument, the blanket `except` at line 778 catches it and only
logs `"Failed to save state"`, and the `json.dump` at lines 775-776 is never
reached.  Hence no snapshot file is ever written for a state with at least
one chunk result (every real run has one per chunk from initialisation), and
`_load_state` (lines 781-788) — as well as the resume branch of
`generate_project`, which requires the state file to exist — never sees a
produced snapshot.  Only the degenerate empty `chunk_results` mapping lets
the body run to completion. -/

/-- The plain dict that `asdict` produces from one `ChunkResult`: same
fields, with the `ChunkStatus` enum member carried over unchanged. -/
structure ResultAsDict where
  chunk_id : String
  status : ChunkStatus
  files_generated : List String
  lines_generated : Nat
  generation_time : Nat
  error_message : Option String
  retry_count : Nat
deriving DecidableEq, Repr

/-- A dynamically typed `chunk_results` entry: a live dataclass instance, or
the plain dict the outer `asdict(state)` recursion left behind. -/
inductive PyResult
  | dataclassVal (r : ChunkResult)
  | dictVal (d : ResultAsDict)
deriving DecidableEq, Repr

/-- Message of the `TypeError` that `dataclasses.asdict` raises on a
non-dataclass argument. -/
def asdict_type_error : String := "asdict() should be called on dataclass instances"

/-- The field-by-field dict `asdict` builds from a `ChunkResult` instance. -/
def result_as_dict (r : ChunkResult) : ResultAsDict :=
  { chunk_id := r.chunk_id, status := r.status,
    files_generated := r.files_generated, lines_generated := r.lines_generated,
    generation_time := r.generation_time, error_message := r.error_message,
    retry_count := r.retry_count }

/-- `dataclasses.asdict` applied to one entry value: converts a dataclass
instance to its dict, raises `TypeError` on anything else — in particular on
the dicts that line 772 actually receives. -/
def asdict_result : PyResult → Except String ResultAsDict
  | .dataclassVal r => .ok (result_as_dict r)
  | .dictVal _ => .error asdict_type_error

/-- The `chunk_results` part of `state_dict = asdict(state)` (line 762): the
recursion has already turned every stored `ChunkResult` into a plain dict. -/
def asdict_state_results (results : List (String × ChunkResult)) :
    List (String × PyResult) :=
  results.map (fun p => (p.1, PyResult.dictVal (result_as_dict p.2)))

/-- The `for chunk_id, result in state_dict['chunk_results'].items()` loop of
lines 771-773: re-applies `asdict` to each entry, propagating the first
raised exception (the status/`.value` replacement at line 773 sits after the
`asdict` call and is therefore never reached on the failing path). -/
def save_state_entries :
    List (String × PyResult) → Except String (List (String × ResultAsDict))
  | [] => .ok []
  | (id, v) :: rest =>
    match asdict_result v with
    | .error e => .error e
    | .ok d =>
      match save_state_entries rest with
      | .error e => .error e
      | .ok ds => .ok ((id, d) :: ds)

/-- `_save_state` (lines 758-779): run the conversion pipeline on the
`chunk_results` mapping under the `try`; if any step raises, the handler at
line 778 only logs, so nothing is written — modelled as `none`.  `some`
carries the entries that `json.dump` would then persist. -/
def save_state (results : List (String × ChunkResult)) :
    Option (List (String × ResultAsDict)) :=
  match save_state_entries (asdict_state_results results) with
  | .error _ => none
  | .ok ds => some ds

/-- The specification's batch selection (spec §4.2 step 3): the ready set
ordered by declared priority, ties broken by declaration order (a stable
sort), truncated to the parallelism bound.  Used only to compare against the
source's actual selection. -/
def spec_select_batch (chunks : List ChunkDefinition) (done : List String)
    (maxParallel : Nat) : List ChunkDefinition :=
  ((ready_chunks chunks done).insertionSort (fun a b => a.priority ≤ b.priority)).take
    maxParallel

/-! ## Basic lemmas about the embedded operations -/

/-- Dict update, read back pointwise. -/
theorem ResultMap.get_set (m : ResultMap) (id : String) (r : ChunkResult) (x : String) :
    (m.set id r) x = if x = id then r else m x := rfl

/-- A freshly generated result is COMPLETED or FAILED — `_generate_single_chunk`
returns no other status. -/
theorem generate_single_chunk_status (exec : ChunkDefinition → ExecOutcome)
    (chunk : ChunkDefinition) :
    (generate_single_chunk exec chunk).status = .completed ∨
    (generate_single_chunk exec chunk).status = .failed := by
  rw [generate_single_chunk]
  split
  · exact Or.inr rfl
  · exact Or.inl rfl

/-- A freshly generated result carries the dataclass default `retry_count = 0`. -/
theorem generate_single_chunk_retry (exec : ChunkDefinition → ExecOutcome)
    (chunk : ChunkDefinition) :
    (generate_single_chunk exec chunk).retry_count = 0 := by
  rw [generate_single_chunk]
  split <;> rfl

/-- A chunk is COMPLETED exactly when the generation step produced a nonempty
file list. -/
theorem generate_single_chunk_completed_iff (exec : ChunkDefinition → ExecOutcome)
    (chunk : ChunkDefinition) :
    (generate_single_chunk exec chunk).status = .completed ↔
      ¬(execute_chunk_generation exec chunk).isEmpty = true := by
  rw [generate_single_chunk]
  split
  · rename_i h
    simp [h]
  · rename_i h
    simp [h]

/-- Unfolding one chunk of the skip fold. -/
theorem skip_dependent_chunks_cons (st : ResultMap) (f : String)
    (c : ChunkDefinition) (rest : List ChunkDefinition) :
    skip_dependent_chunks st f (c :: rest) =
      skip_dependent_chunks
        (if f ∈ c.dependencies ∧ (st c.chunk_id).status = .pending then
          st.set c.chunk_id { st c.chunk_id with status := .skipped }
        else st) f rest := rfl

/-- Skip-propagation either leaves an entry alone or only flips its status to
SKIPPED. -/
theorem skip_dependent_chunks_pointwise (f : String) (all : List ChunkDefinition)
    (st : ResultMap) (id : String) :
    (skip_dependent_chunks st f all) id = st id ∨
    (skip_dependent_chunks st f all) id = { st id with status := .skipped } := by
  induction all generalizing st with
  | nil => exact Or.inl rfl
  | cons c rest ih =>
    rw [skip_dependent_chunks_cons]
    by_cases hc : f ∈ c.dependencies ∧ (st c.chunk_id).status = .pending
    · rw [if_pos hc]
      rcases ih (st.set c.chunk_id { st c.chunk_id with status := .skipped }) with h | h <;>
          rw [h, ResultMap.get_set] <;>
          by_cases hid : id = c.chunk_id
      · subst hid
        rw [if_pos rfl]
        exact Or.inr rfl
      · rw [if_neg hid]
        exact Or.inl rfl
      · subst hid
        rw [if_pos rfl]
        exact Or.inr rfl
      · rw [if_neg hid]
        exact Or.inr rfl
    · rw [if_neg hc]
      exact ih st


/-- Skip-propagation never touches an entry that is not PENDING. -/
theorem skip_dependent_chunks_nonpending (f : String) (all : List ChunkDefinition)
    (st : ResultMap) (id : String) (h : (st id).status ≠ .pending) :
    (skip_dependent_chunks st f all) id = st id := by
  induction all generalizing st with
  | nil => rfl
  | cons c rest ih =>
    rw [skip_dependent_chunks_cons]
    by_cases hc : f ∈ c.dependencies ∧ (st c.chunk_id).status = .pending
    · rw [if_pos hc]
      have hid : id ≠ c.chunk_id := by
        intro he
        exact h (he ▸ hc.2)
      have hst : (st.set c.chunk_id { st c.chunk_id with status := .skipped }) id = st id := by
        rw [ResultMap.get_set, if_neg hid]
      rw [ih _ (by rw [hst]; exact h), hst]
    · rw [if_neg hc]
      exact ih st h

/-- After skip-propagation an entry's status is its old one or SKIPPED. -/
theorem skip_dependent_chunks_status (f : String) (all : List ChunkDefinition)
    (st : ResultMap) (id : String) :
    ((skip_dependent_chunks st f all) id).status = (st id).status ∨
    ((skip_dependent_chunks st f all) id).status = .skipped := by
  rcases skip_dependent_chunks_pointwise f all st id with h | h <;> rw [h]
  · exact Or.inl rfl
  · exact Or.inr rfl

/-- Skip-propagation never changes a retry counter. -/
theorem skip_dependent_chunks_retry (f : String) (all : List ChunkDefinition)
    (st : ResultMap) (id : String) :
    ((skip_dependent_chunks st f all) id).retry_count = (st id).retry_count := by
  rcases skip_dependent_chunks_pointwise f all st id with h | h <;> rw [h]

/-- Every chunk that DIRECTLY depends on the failed id and is PENDING ends up
SKIPPED (chunk ids assumed distinct, as the spec's data model requires). -/
theorem skip_dependent_chunks_direct (f : String) (all : List ChunkDefinition)
    (st : ResultMap) (c : ChunkDefinition)
    (hnd : (all.map ChunkDefinition.chunk_id).Nodup)
    (hmem : c ∈ all) (hdep : f ∈ c.dependencies)
    (hpend : (st c.chunk_id).status = .pending) :
    ((skip_dependent_chunks st f all) c.chunk_id).status = .skipped := by
  induction all generalizing st with
  | nil => cases hmem
  | cons hd rest ih =>
    rw [skip_dependent_chunks_cons]
    rcases List.mem_cons.mp hmem with he | hrest
    · subst he
      rw [if_pos ⟨hdep, hpend⟩]
      rcases skip_dependent_chunks_status f rest
          (st.set c.chunk_id { st c.chunk_id with status := .skipped }) c.chunk_id with h | h
      · rw [h, ResultMap.get_set, if_pos rfl]
      · exact h
    · have hne : hd.chunk_id ≠ c.chunk_id := by
        intro he
        rw [List.map_cons, List.nodup_cons] at hnd
        exact hnd.1 (he ▸ List.mem_map_of_mem ChunkDefinition.chunk_id hrest)
      have hnd' : (rest.map ChunkDefinition.chunk_id).Nodup := by
        rw [List.map_cons, List.nodup_cons] at hnd
        exact hnd.2
      by_cases hc : f ∈ hd.dependencies ∧ (st hd.chunk_id).status = .pending
      · rw [if_pos hc]
        refine ih _ hnd' hrest ?_
        rw [ResultMap.get_set, if_neg (Ne.symm hne)]
        exact hpend
      · rw [if_neg hc]
        exact ih st hnd' hrest hpend

/-- A result slot whose chunk does not DIRECTLY depend on the failed id is left
completely unchanged by skip-propagation. -/
theorem skip_dependent_chunks_not_direct (f : String) (all : List ChunkDefinition)
    (st : ResultMap) (id : String)
    (h : ∀ c ∈ all, c.chunk_id = id → f ∉ c.dependencies) :
    (skip_dependent_chunks st f all) id = st id := by
  induction all generalizing st with
  | nil => rfl
  | cons c rest ih =>
    rw [skip_dependent_chunks_cons]
    by_cases hc : f ∈ c.dependencies ∧ (st c.chunk_id).status = .pending
    · have hne : c.chunk_id ≠ id := by
        intro he
        exact h c (List.mem_cons_self c rest) he hc.1
      have hst : (st.set c.chunk_id { st c.chunk_id with status := .skipped }) id = st id := by
        rw [ResultMap.get_set, if_neg (Ne.symm hne)]
      rw [if_pos hc, ih _ (fun d hd => h d (List.mem_cons_of_mem c hd)), hst]
    · rw [if_neg hc]
      exact ih st (fun d hd => h d (List.mem_cons_of_mem c hd))

/-- `_attempt_chunk_recovery` touches only the failed chunk's own slot. -/
theorem attempt_chunk_recovery_other (exec : ChunkDefinition → ExecOutcome)
    (st : ResultMap) (chunk : ChunkDefinition) (x : String)
    (h : x ≠ chunk.chunk_id) :
    (attempt_chunk_recovery exec st chunk).1 x = st x := by
  rw [attempt_chunk_recovery]
  split
  · rfl
  · simp only [ResultMap.get_set, if_neg h]

/-- Below the retry cap, recovery stores the freshly generated result of the
simplified chunk (whose `retry_count` is 0): the in-place increment of the
old result is overwritten. -/
theorem attempt_chunk_recovery_store (exec : ChunkDefinition → ExecOutcome)
    (st : ResultMap) (chunk : ChunkDefinition)
    (h : (st chunk.chunk_id).retry_count < 2) :
    (attempt_chunk_recovery exec st chunk).1 chunk.chunk_id =
      generate_single_chunk exec (simplify_chunk chunk) := by
  rw [attempt_chunk_recovery]
  rw [if_neg (by omega)]
  simp [ResultMap.get_set]

/-- At or above the retry cap, recovery does nothing and reports failure:
no reduced-scope retry is executed. -/
theorem attempt_chunk_recovery_capped (exec : ChunkDefinition → ExecOutcome)
    (st : ResultMap) (chunk : ChunkDefinition)
    (h : 2 ≤ (st chunk.chunk_id).retry_count) :
    attempt_chunk_recovery exec st chunk = (st, false) := by
  rw [attempt_chunk_recovery, if_pos h]

/-- Below the retry cap, the boolean returned by recovery is exactly the test
`new_result.status == ChunkStatus.COMPLETED`. -/
theorem attempt_chunk_recovery_flag_eq (exec : ChunkDefinition → ExecOutcome)
    (st : ResultMap) (chunk : ChunkDefinition)
    (h : (st chunk.chunk_id).retry_count < 2) :
    (attempt_chunk_recovery exec st chunk).2 =
      ((generate_single_chunk exec (simplify_chunk chunk)).status == .completed) := by
  rw [attempt_chunk_recovery, if_neg (by omega)]

/-- If recovery reports success, the stored status is COMPLETED. -/
theorem attempt_chunk_recovery_flag (exec : ChunkDefinition → ExecOutcome)
    (st : ResultMap) (chunk : ChunkDefinition)
    (h : (attempt_chunk_recovery exec st chunk).2 = true) :
    ((attempt_chunk_recovery exec st chunk).1 chunk.chunk_id).status = .completed := by
  by_cases hr : (st chunk.chunk_id).retry_count < 2
  · rw [attempt_chunk_recovery_store exec st chunk hr]
    rw [attempt_chunk_recovery_flag_eq exec st chunk hr] at h
    exact eq_of_beq h
  · rw [attempt_chunk_recovery_capped exec st chunk (by omega)] at h
    simp at h

/-- Recovery keeps COMPLETED/FAILED statuses COMPLETED/FAILED. -/
theorem attempt_chunk_recovery_cf (exec : ChunkDefinition → ExecOutcome)
    (st : ResultMap) (chunk : ChunkDefinition) (id : String)
    (h : (st id).status = .completed ∨ (st id).status = .failed) :
    (((attempt_chunk_recovery exec st chunk).1 id).status = .completed ∨
      ((attempt_chunk_recovery exec st chunk).1 id).status = .failed) := by
  by_cases hid : id = chunk.chunk_id
  · subst hid
    by_cases hr : (st chunk.chunk_id).retry_count < 2
    · rw [attempt_chunk_recovery_store exec st chunk hr]
      exact generate_single_chunk_status exec (simplify_chunk chunk)
    · rw [attempt_chunk_recovery_capped exec st chunk (by omega)]
      exact h
  · rw [attempt_chunk_recovery_other exec st chunk id hid]
    exact h

/-- Recovery keeps all retry counters ≤ 2 (a written slot gets the fresh
result's 0; every other slot is untouched). -/
theorem attempt_chunk_recovery_retry_le (exec : ChunkDefinition → ExecOutcome)
    (st : ResultMap) (chunk : ChunkDefinition) (id : String)
    (h : (st id).retry_count ≤ 2) :
    ((attempt_chunk_recovery exec st chunk).1 id).retry_count ≤ 2 := by
  by_cases hid : id = chunk.chunk_id
  · subst hid
    by_cases hr : (st chunk.chunk_id).retry_count < 2
    · rw [attempt_chunk_recovery_store exec st chunk hr,
        generate_single_chunk_retry]
      omega
    · rw [attempt_chunk_recovery_capped exec st chunk (by omega)]
      exact h
  · rw [attempt_chunk_recovery_other exec st chunk id hid]
    exact h

/-- Membership after a set-insert. -/
theorem mem_addDone (done : List String) (id x : String) :
    x ∈ addDone done id ↔ x ∈ done ∨ x = id := by
  rw [addDone]
  split
  · rename_i h
    constructor
    · exact Or.inl
    · rintro (hx | rfl)
      · exact hx
      · exact h
  · rw [List.mem_append, List.mem_singleton]

/-- Set-insert preserves distinctness. -/
theorem addDone_nodup (done : List String) (id : String) (h : done.Nodup) :
    (addDone done id).Nodup := by
  rw [addDone]
  split
  · exact h
  · rename_i hni
    rw [List.nodup_append]
    refine ⟨h, List.nodup_singleton id, ?_⟩
    intro a ha hmem
    rw [List.mem_singleton] at hmem
    exact hni (hmem ▸ ha)

/-- Set-insert only grows the set. -/
theorem subset_addDone (done : List String) (id : String) : done ⊆ addDone done id := by
  intro x hx
  rw [mem_addDone]
  exact Or.inl hx

/-- The inserted element is a member. -/
theorem mem_addDone_self (done : List String) (id : String) : id ∈ addDone done id := by
  rw [mem_addDone]
  exact Or.inr rfl

/-- Unfolding one chunk of the batch-generation fold. -/
theorem run_batch_cons (exec : ChunkDefinition → ExecOutcome) (st : GenState)
    (c : ChunkDefinition) (rest : List ChunkDefinition) :
    run_batch exec st (c :: rest) =
      run_batch exec
        { results := st.results.set c.chunk_id (generate_single_chunk exec c),
          current_chunk := some c.chunk_id } rest := rfl

/-- Batch execution leaves the slot of any id outside the batch untouched. -/
theorem run_batch_other (exec : ChunkDefinition → ExecOutcome)
    (batch : List ChunkDefinition) (st : GenState) (x : String)
    (h : ∀ c ∈ batch, c.chunk_id ≠ x) :
    (run_batch exec st batch).results x = st.results x := by
  induction batch generalizing st with
  | nil => rfl
  | cons c rest ih =>
    rw [run_batch_cons, ih _ (fun d hd => h d (List.mem_cons_of_mem c hd))]
    simp only [ResultMap.get_set]
    rw [if_neg (fun he => h c (List.mem_cons_self c rest) he.symm)]

/-- After batch execution each batch chunk's slot holds the freshly generated
result (batch ids distinct). -/
theorem run_batch_mem (exec : ChunkDefinition → ExecOutcome)
    (batch : List ChunkDefinition) (st : GenState) (c : ChunkDefinition)
    (hnd : (batch.map ChunkDefinition.chunk_id).Nodup) (hmem : c ∈ batch) :
    (run_batch exec st batch).results c.chunk_id = generate_single_chunk exec c := by
  induction batch generalizing st with
  | nil => cases hmem
  | cons hd rest ih =>
    rw [List.map_cons, List.nodup_cons] at hnd
    rcases List.mem_cons.mp hmem with he | hrest
    · subst he
      rw [run_batch_cons]
      rw [run_batch_other exec rest _ c.chunk_id
        (fun d hd' he => hnd.1 (he ▸ List.mem_map_of_mem ChunkDefinition.chunk_id hd'))]
      simp [ResultMap.get_set]
    · rw [run_batch_cons]
      exact ih _ hnd.2 hrest

/-- Batch execution keeps every retry counter ≤ 2 (fresh results carry 0). -/
theorem run_batch_retry_le (exec : ChunkDefinition → ExecOutcome)
    (batch : List ChunkDefinition) (st : GenState) (x : String)
    (h : ∀ id, (st.results id).retry_count ≤ 2) :
    ((run_batch exec st batch).results x).retry_count ≤ 2 := by
  induction batch generalizing st with
  | nil => exact h x
  | cons c rest ih =>
    rw [run_batch_cons]
    refine ih _ (fun id => ?_)
    simp only [ResultMap.get_set]
    split
    · rw [generate_single_chunk_retry]
      omega
    · exact h id

/-- COMPLETED or FAILED — the statuses that put a chunk in `completed_chunks`. -/
def statusCF (s : ChunkStatus) : Prop := s = .completed ∨ s = .failed

/-- One result-processing step never destroys a COMPLETED/FAILED status
anywhere in the map: writes are either fresh results (COMPLETED/FAILED) or
skip-propagation (which touches only PENDING slots). -/
theorem process_result_stable (exec : ChunkDefinition → ExecOutcome)
    (allChunks : List ChunkDefinition) (acc : List String × ResultMap)
    (c : ChunkDefinition) (id : String) (h : statusCF ((acc.2 id).status)) :
    statusCF (((process_result exec allChunks acc c).2 id).status) := by
  rw [process_result]
  split
  · exact h
  · split
    · split
      · exact attempt_chunk_recovery_cf exec acc.2 c id h
      · have hcf := attempt_chunk_recovery_cf exec acc.2 c id h
        rcases skip_dependent_chunks_status c.chunk_id allChunks
            (attempt_chunk_recovery exec acc.2 c).1 id with hs | hs
        · rw [statusCF, hs]
          exact hcf
        · rcases hcf with hcf | hcf <;>
            · exfalso
              have := skip_dependent_chunks_nonpending c.chunk_id allChunks
                (attempt_chunk_recovery exec acc.2 c).1 id (by rw [hcf]; intro hx; cases hx)
              rw [this] at hs
              rw [hs] at hcf
              cases hcf
    · exact h

/-- One result-processing step keeps every retry counter ≤ 2. -/
theorem process_result_retry_le (exec : ChunkDefinition → ExecOutcome)
    (allChunks : List ChunkDefinition) (acc : List String × ResultMap)
    (c : ChunkDefinition) (id : String)
    (h : ∀ x, ((acc.2 x).retry_count ≤ 2)) :
    ((process_result exec allChunks acc c).2 id).retry_count ≤ 2 := by
  rw [process_result]
  split
  · exact h id
  · split
    · split
      · exact attempt_chunk_recovery_retry_le exec acc.2 c id (h id)
      · rw [skip_dependent_chunks_retry]
        exact attempt_chunk_recovery_retry_le exec acc.2 c id (h id)
    · exact h id

/-- The done-set of one processing step only grows. -/
theorem process_result_done_mono (exec : ChunkDefinition → ExecOutcome)
    (allChunks : List ChunkDefinition) (acc : List String × ResultMap)
    (c : ChunkDefinition) :
    acc.1 ⊆ (process_result exec allChunks acc c).1 := by
  rw [process_result]
  split
  · exact subset_addDone acc.1 c.chunk_id
  · split
    · split <;> exact subset_addDone acc.1 c.chunk_id
    · exact fun x hx => hx

/-- The done-set of one processing step adds at most the processed chunk's id. -/
theorem process_result_done_subset (exec : ChunkDefinition → ExecOutcome)
    (allChunks : List ChunkDefinition) (acc : List String × ResultMap)
    (c : ChunkDefinition) :
    ∀ x ∈ (process_result exec allChunks acc c).1, x ∈ acc.1 ∨ x = c.chunk_id := by
  intro x hx
  rw [process_result] at hx
  split at hx
  · exact (mem_addDone acc.1 c.chunk_id x).mp hx
  · split at hx
    · split at hx <;> exact (mem_addDone acc.1 c.chunk_id x).mp hx
    · exact Or.inl hx

/-- One processing step preserves distinctness of the done-set. -/
theorem process_result_done_nodup (exec : ChunkDefinition → ExecOutcome)
    (allChunks : List ChunkDefinition) (acc : List String × ResultMap)
    (c : ChunkDefinition) (h : acc.1.Nodup) :
    (process_result exec allChunks acc c).1.Nodup := by
  rw [process_result]
  split
  · exact addDone_nodup acc.1 c.chunk_id h
  · split
    · split <;> exact addDone_nodup acc.1 c.chunk_id h
    · exact h

/-- A chunk whose slot is COMPLETED or FAILED is marked done by its own
processing step. -/
theorem process_result_adds (exec : ChunkDefinition → ExecOutcome)
    (allChunks : List ChunkDefinition) (acc : List String × ResultMap)
    (c : ChunkDefinition) (h : statusCF ((acc.2 c.chunk_id).status)) :
    c.chunk_id ∈ (process_result exec allChunks acc c).1 := by
  rw [process_result]
  rcases h with h | h
  · rw [if_pos h]
    exact mem_addDone_self acc.1 c.chunk_id
  · by_cases h1 : (acc.2 c.chunk_id).status = .completed
    · rw [if_pos h1]
      exact mem_addDone_self acc.1 c.chunk_id
    · rw [if_neg h1, if_pos h]
      split <;> exact mem_addDone_self acc.1 c.chunk_id

/-- Every id already marked done keeps a COMPLETED/FAILED status slot through
one processing step, and the step's own chunk (if COMPLETED/FAILED before the
step) is both marked done and still COMPLETED/FAILED after it. -/
theorem process_result_invariant (exec : ChunkDefinition → ExecOutcome)
    (allChunks : List ChunkDefinition) (acc : List String × ResultMap)
    (c : ChunkDefinition)
    (hdone : ∀ id ∈ acc.1, statusCF ((acc.2 id).status))
    (hc : statusCF ((acc.2 c.chunk_id).status)) :
    ∀ id ∈ (process_result exec allChunks acc c).1,
      statusCF (((process_result exec allChunks acc c).2 id).status) := by
  intro id hid
  rcases process_result_done_subset exec allChunks acc c id hid with hin | rfl
  · exact process_result_stable exec allChunks acc c id (hdone id hin)
  · exact process_result_stable exec allChunks acc c c.chunk_id hc

/-- Unfolding one chunk of the post-batch bookkeeping fold. -/
theorem process_batch_cons (exec : ChunkDefinition → ExecOutcome)
    (allChunks : List ChunkDefinition) (c : ChunkDefinition)
    (rest : List ChunkDefinition) (acc : List String × ResultMap) :
    process_batch exec allChunks (c :: rest) acc =
      process_batch exec allChunks rest (process_result exec allChunks acc c) := rfl

/-- Post-batch bookkeeping: statuses of done ids stay COMPLETED/FAILED, the
done-set grows by exactly the batch ids, every batch chunk is marked done,
and distinctness is preserved. -/
theorem process_batch_invariant (exec : ChunkDefinition → ExecOutcome)
    (allChunks : List ChunkDefinition) (batch : List ChunkDefinition) :
    ∀ acc : List String × ResultMap,
      (∀ id ∈ acc.1, statusCF ((acc.2 id).status)) →
      (∀ c ∈ batch, statusCF ((acc.2 c.chunk_id).status)) →
      (∀ id ∈ (process_batch exec allChunks batch acc).1,
        statusCF (((process_batch exec allChunks batch acc).2 id).status)) ∧
      acc.1 ⊆ (process_batch exec allChunks batch acc).1 ∧
      (∀ c ∈ batch, c.chunk_id ∈ (process_batch exec allChunks batch acc).1) ∧
      (∀ x ∈ (process_batch exec allChunks batch acc).1,
        x ∈ acc.1 ∨ x ∈ batch.map ChunkDefinition.chunk_id) ∧
      (acc.1.Nodup → (process_batch exec allChunks batch acc).1.Nodup) := by
  induction batch with
  | nil =>
    intro acc hdone _
    exact ⟨hdone, fun x hx => hx, fun c hc => absurd hc (List.not_mem_nil c),
      fun x hx => Or.inl hx, fun h => h⟩
  | cons c rest ih =>
    intro acc hdone hb
    rw [process_batch_cons]
    have hc := hb c (List.mem_cons_self c rest)
    have hdone' := process_result_invariant exec allChunks acc c hdone hc
    have hb' : ∀ c' ∈ rest, statusCF (((process_result exec allChunks acc c).2 c'.chunk_id).status) :=
      fun c' hc' => process_result_stable exec allChunks acc c c'.chunk_id
        (hb c' (List.mem_cons_of_mem c hc'))
    obtain ⟨i1, i2, i3, i4, i5⟩ := ih (process_result exec allChunks acc c) hdone' hb'
    refine ⟨i1, ?_, ?_, ?_, ?_⟩
    · exact fun x hx => i2 (process_result_done_mono exec allChunks acc c hx)
    · intro c' hc'
      rcases List.mem_cons.mp hc' with he | hrest
      · subst he
        exact i2 (process_result_adds exec allChunks acc c' hc)
      · exact i3 c' hrest
    · intro x hx
      rcases i4 x hx with hx' | hx'
      · rcases process_result_done_subset exec allChunks acc c x hx' with hx'' | hx''
        · exact Or.inl hx''
        · exact Or.inr (by rw [List.map_cons, hx'']; exact List.mem_cons_self _ _)
      · exact Or.inr (by rw [List.map_cons]; exact List.mem_cons_of_mem _ hx')
    · exact fun h => i5 (process_result_done_nodup exec allChunks acc c h)

/-- Post-batch bookkeeping keeps every retry counter ≤ 2. -/
theorem process_batch_retry_le (exec : ChunkDefinition → ExecOutcome)
    (allChunks : List ChunkDefinition) (batch : List ChunkDefinition) :
    ∀ acc : List String × ResultMap,
      (∀ x, (acc.2 x).retry_count ≤ 2) →
      ∀ x, ((process_batch exec allChunks batch acc).2 x).retry_count ≤ 2 := by
  induction batch with
  | nil => exact fun acc h => h
  | cons c rest ih =>
    intro acc h
    rw [process_batch_cons]
    exact ih (process_result exec allChunks acc c)
      (fun x => process_result_retry_le exec allChunks acc c x h)

/-- Membership in the ready set, unfolded. -/
theorem ready_chunks_mem (chunks : List ChunkDefinition) (done : List String)
    (c : ChunkDefinition) :
    c ∈ ready_chunks chunks done ↔
      c ∈ chunks ∧ c.chunk_id ∉ done ∧ ∀ d ∈ c.dependencies, d ∈ done := by
  rw [ready_chunks, List.mem_filter]
  simp

/-- The ready set is a sublist of the declaration order. -/
theorem ready_chunks_sublist (chunks : List ChunkDefinition) (done : List String) :
    List.Sublist (ready_chunks chunks done) chunks :=
  List.filter_sublist chunks

/-- While an undone chunk remains in an acyclic, dependency-closed graph, the
ready set is nonempty (the heart of cycle detection: minimal-rank undone
chunks are ready). -/
theorem ready_chunks_ne_nil (chunks : List ChunkDefinition) (rank : String → Nat)
    (hclosed : ∀ c ∈ chunks, ∀ d ∈ c.dependencies, d ∈ chunks.map ChunkDefinition.chunk_id)
    (hrank : ∀ c ∈ chunks, ∀ d ∈ c.dependencies, rank d < rank c.chunk_id)
    (done : List String) :
    ∀ n (c : ChunkDefinition), c ∈ chunks → c.chunk_id ∉ done →
      rank c.chunk_id ≤ n → ready_chunks chunks done ≠ [] := by
  intro n
  induction n with
  | zero =>
    intro c hc hnd hr
    have hdeps : ∀ d ∈ c.dependencies, d ∈ done :=
      fun d hd => absurd (hrank c hc d hd) (by omega)
    exact List.ne_nil_of_mem ((ready_chunks_mem chunks done c).mpr ⟨hc, hnd, hdeps⟩)
  | succ n ih =>
    intro c hc hnd hr
    by_cases hdeps : ∀ d ∈ c.dependencies, d ∈ done
    · exact List.ne_nil_of_mem ((ready_chunks_mem chunks done c).mpr ⟨hc, hnd, hdeps⟩)
    · push_neg at hdeps
      obtain ⟨d, hd, hdnd⟩ := hdeps
      obtain ⟨c', hc', hcid⟩ := List.mem_map.mp (hclosed c hc d hd)
      refine ih c' hc' (by rw [hcid]; exact hdnd) ?_
      have h2 := hrank c hc d hd
      rw [hcid]
      omega

/-- If there are fewer done ids than chunks, some chunk id is undone. -/
theorem exists_not_done (chunks : List ChunkDefinition) (done : List String)
    (hnd : (chunks.map ChunkDefinition.chunk_id).Nodup)
    (hlen : done.length < chunks.length) :
    ∃ c ∈ chunks, c.chunk_id ∉ done := by
  by_contra h
  push_neg at h
  have hsub : chunks.map ChunkDefinition.chunk_id ⊆ done := by
    intro x hx
    obtain ⟨c, hc, rfl⟩ := List.mem_map.mp hx
    exact h c hc
  have := (List.Nodup.subperm hnd hsub).length_le
  rw [List.length_map] at this
  omega

/-- If the done set has at least as many (distinct, graph-drawn) ids as the
graph has chunks, every chunk id is done. -/
theorem all_done_of_ge (chunks : List ChunkDefinition) (done : List String)
    (hsub : done ⊆ chunks.map ChunkDefinition.chunk_id) (hdn : done.Nodup)
    (hlen : ¬done.length < chunks.length) :
    ∀ c ∈ chunks, c.chunk_id ∈ done := by
  by_contra h
  push_neg at h
  obtain ⟨c, hc, hni⟩ := h
  have h1 : (c.chunk_id :: done).Nodup := List.nodup_cons.mpr ⟨hni, hdn⟩
  have h2 : (c.chunk_id :: done) ⊆ chunks.map ChunkDefinition.chunk_id := by
    intro x hx
    rcases List.mem_cons.mp hx with rfl | hx
    · exact List.mem_map_of_mem ChunkDefinition.chunk_id hc
    · exact hsub hx
  have := (List.Nodup.subperm h1 h2).length_le
  rw [List.length_cons, List.length_map] at this
  omega

/-- A distinct list strictly contained in another distinct list (one extra
member) is strictly shorter. -/
theorem length_lt_of_extra (done out : List String) (id : String)
    (hsub : done ⊆ out) (hmem : id ∈ out) (hni : id ∉ done)
    (hdn : done.Nodup) :
    done.length < out.length := by
  have h1 : (id :: done).Nodup := List.nodup_cons.mpr ⟨hni, hdn⟩
  have h2 : (id :: done) ⊆ out := by
    intro x hx
    rcases List.mem_cons.mp hx with rfl | hx
    · exact hmem
    · exact hsub hx
  have := (List.Nodup.subperm h1 h2).length_le
  rw [List.length_cons] at this
  omega

/-- Throughout the wave loop — whatever state it stops in — every stored retry
counter stays ≤ 2. -/
theorem loop_retry_le (exec : ChunkDefinition → ExecOutcome) (P : Nat)
    (chunks : List ChunkDefinition) :
    ∀ (fuel : Nat) (done : List String) (st : GenState),
      (∀ id, (st.results id).retry_count ≤ 2) →
      ∀ id,
        (((generate_chunks_ordered exec P chunks fuel done st).state).results id).retry_count ≤ 2 := by
  intro fuel
  induction fuel with
  | zero =>
    intro done st h id
    rw [generate_chunks_ordered]
    split <;> exact h id
  | succ fuel ih =>
    intro done st h id
    rw [generate_chunks_ordered]
    split
    · split
      · exact h id
      · refine ih _ _ (fun x => ?_) id
        exact process_batch_retry_le exec chunks
          ((ready_chunks chunks done).take P)
          (done, (run_batch exec st ((ready_chunks chunks done).take P)).results)
          (fun y => run_batch_retry_le exec ((ready_chunks chunks done).take P) st y h) x
    · exact h id

/-- The wave loop, given enough fuel, a distinct-id graph whose dependencies
stay inside the graph, and a rank function witnessing acyclicity, exits
normally with every chunk COMPLETED or FAILED. -/
theorem loop_finishes (exec : ChunkDefinition → ExecOutcome) (P : Nat)
    (chunks : List ChunkDefinition) (rank : String → Nat) (hP : 0 < P)
    (hnd : (chunks.map ChunkDefinition.chunk_id).Nodup)
    (hclosed : ∀ c ∈ chunks, ∀ d ∈ c.dependencies, d ∈ chunks.map ChunkDefinition.chunk_id)
    (hrank : ∀ c ∈ chunks, ∀ d ∈ c.dependencies, rank d < rank c.chunk_id) :
    ∀ (fuel : Nat) (done : List String) (st : GenState),
      done ⊆ chunks.map ChunkDefinition.chunk_id →
      done.Nodup →
      (∀ id ∈ done, statusCF ((st.results id).status)) →
      chunks.length ≤ done.length + fuel →
      ∃ st', generate_chunks_ordered exec P chunks fuel done st = .finished st' ∧
        ∀ c ∈ chunks, statusCF ((st'.results c.chunk_id).status) := by
  intro fuel
  induction fuel with
  | zero =>
    intro done st hsub hdn hcf hfuel
    rw [generate_chunks_ordered, if_neg (by omega)]
    refine ⟨st, rfl, fun c hc => ?_⟩
    exact hcf c.chunk_id (all_done_of_ge chunks done hsub hdn (by omega) c hc)
  | succ fuel ih =>
    intro done st hsub hdn hcf hfuel
    rw [generate_chunks_ordered]
    by_cases hlen : done.length < chunks.length
    · rw [if_pos hlen]
      obtain ⟨c0, hc0, hc0nd⟩ := exists_not_done chunks done hnd hlen
      have hready : ready_chunks chunks done ≠ [] :=
        ready_chunks_ne_nil chunks rank hclosed hrank done (rank c0.chunk_id) c0 hc0
          hc0nd le_rfl
      rw [if_neg (by simpa using hready)]
      set batch := (ready_chunks chunks done).take P with hbdef
      set st1 := run_batch exec st batch with hst1def
      set pr := process_batch exec chunks batch (done, st1.results) with hprdef
      have hbready : ∀ c ∈ batch, c ∈ ready_chunks chunks done :=
        fun c hc => List.take_subset P (ready_chunks chunks done) hc
      have hbprops : ∀ c ∈ batch,
          c ∈ chunks ∧ c.chunk_id ∉ done ∧ ∀ d ∈ c.dependencies, d ∈ done :=
        fun c hc => (ready_chunks_mem chunks done c).mp (hbready c hc)
      have hbsub : List.Sublist batch chunks :=
        List.Sublist.trans (List.take_sublist P (ready_chunks chunks done))
          (ready_chunks_sublist chunks done)
      have hbnd : (batch.map ChunkDefinition.chunk_id).Nodup :=
        List.Nodup.sublist (List.Sublist.map ChunkDefinition.chunk_id hbsub) hnd
      have hbne : batch ≠ [] := by
        rw [hbdef]
        intro he
        rcases List.take_eq_nil_iff.mp he with h | h
        · omega
        · exact hready h
      have hst1done : ∀ id ∈ done, st1.results id = st.results id := by
        intro id hid
        refine run_batch_other exec batch st id (fun c hc he => ?_)
        exact (hbprops c hc).2.1 (he ▸ hid)
      have hst1batch : ∀ c ∈ batch, statusCF ((st1.results c.chunk_id).status) := by
        intro c hc
        rw [hst1def, run_batch_mem exec batch st c hbnd hc]
        exact generate_single_chunk_status exec c
      obtain ⟨i1, i2, i3, i4, i5⟩ :=
        process_batch_invariant exec chunks batch (done, st1.results)
          (fun id hid => by
            show statusCF ((st1.results id).status)
            rw [hst1done id hid]
            exact hcf id hid)
          hst1batch
      have hprsub : pr.1 ⊆ chunks.map ChunkDefinition.chunk_id := by
        intro x hx
        rcases i4 x hx with hx' | hx'
        · exact hsub hx'
        · obtain ⟨c, hc, rfl⟩ := List.mem_map.mp hx'
          exact List.mem_map_of_mem ChunkDefinition.chunk_id (hbprops c hc).1
      have hlen' : done.length < pr.1.length := by
        have hb0 := List.head_mem hbne
        refine length_lt_of_extra done pr.1 ((batch.head hbne).chunk_id) i2
          (i3 (batch.head hbne) hb0) ((hbprops (batch.head hbne) hb0).2.1) hdn
      exact ih pr.1 { results := pr.2, current_chunk := st1.current_chunk }
        hprsub (i5 hdn) i1 (by omega)
    · rw [if_neg hlen]
      refine ⟨st, rfl, fun c hc => ?_⟩
      exact hcf c.chunk_id (all_done_of_ge chunks done hsub hdn hlen c hc)

/-- If the wave loop exits normally, `generate_project` returns its state. -/
theorem generate_project_of_finished (exec : ChunkDefinition → ExecOutcome)
    (P : Nat) (chunks : List ChunkDefinition) (st : GenState)
    (h : generate_chunks_ordered exec P chunks chunks.length [] initState = .finished st) :
    generate_project exec P chunks = st := by
  rw [generate_project, h]

/-- If the wave loop ends in fuel exhaustion (a model artifact), the state is
returned unchanged. -/
theorem generate_project_of_fuelOut (exec : ChunkDefinition → ExecOutcome)
    (P : Nat) (chunks : List ChunkDefinition) (st : GenState)
    (h : generate_chunks_ordered exec P chunks chunks.length [] initState = .fuelOut st) :
    generate_project exec P chunks = st := by
  rw [generate_project, h]

/-- If the wave loop raises the circular-dependency exception,
`generate_project` catches it, records `exception_result` under
`current_chunk or "unknown"`, and returns the state (no re-raise). -/
theorem generate_project_of_cyclic (exec : ChunkDefinition → ExecOutcome)
    (P : Nat) (chunks : List ChunkDefinition) (st : GenState)
    (h : generate_chunks_ordered exec P chunks chunks.length [] initState = .cyclic st) :
    generate_project exec P chunks =
      { st with
        results := st.results.set (st.current_chunk.getD "unknown")
          (exception_result (st.current_chunk.getD "unknown")) } := by
  rw [generate_project, h]

/-! ## Concrete fixtures for the closed theorems -/

/-- Fixture constructor for concrete `ChunkDefinition`s. -/
def sampleChunk (id : String) (deps : List String) (files : List String) :
    ChunkDefinition :=
  { chunk_id := id, chunk_name := id, description := "", dependencies := deps,
    estimated_lines := 100, priority := 1, complexity := "medium",
    files_to_generate := files, interfaces := [], technologies := [] }

/-- A root chunk declaring no artifacts: its fallback synthesizes nothing, so
its generation (and its reduced-scope retry) end FAILED. -/
def chunkA : ChunkDefinition := sampleChunk "A" [] []

/-- Depends on `A`; generation succeeds when dispatched. -/
def chunkB : ChunkDefinition := sampleChunk "B" ["A"] ["b.py"]

/-- Depends on `B` — a transitive dependent of `A`. -/
def chunkC : ChunkDefinition := sampleChunk "C" ["B"] ["c.py"]

/-- An independent chunk forming an acyclic prefix in front of the X⇄Y
cycle. -/
def chunkW : ChunkDefinition := sampleChunk "W" [] ["w.py"]

/-- One half of the two-cycle `X` depends on `Y` depends on `X`. -/
def chunkX : ChunkDefinition := sampleChunk "X" ["Y"] ["x.py"]

/-- The other half of the two-cycle. -/
def chunkY : ChunkDefinition := sampleChunk "Y" ["X"] ["y.py"]

/-- A plain chunk with one declared artifact. -/
def chunkZ : ChunkDefinition := sampleChunk "Z" [] ["z.py"]

/-- A chunk whose declared artifact list holds only a directory entry. -/
def chunkDocs : ChunkDefinition := sampleChunk "D" [] ["docs/"]

/-- Declared first, low urgency (priority 5). -/
def chunkP1 : ChunkDefinition := { sampleChunk "P1" [] ["a.py"] with priority := 5 }

/-- Declared second, high urgency (priority 1). -/
def chunkP2 : ChunkDefinition := { sampleChunk "P2" [] ["b.py"] with priority := 1 }

/-- Oracle: generation succeeds for `B`, fails for everything else. -/
def execAB : ChunkDefinition → ExecOutcome :=
  fun c => if c.chunk_id = "B" then .deposited ["b.py"] else .failedRun

/-- Oracle: generation fails for `A`, succeeds elsewhere. -/
def execFailA : ChunkDefinition → ExecOutcome :=
  fun c => if c.chunk_id = "A" then .failedRun else .deposited ["f.py"]

/-- Oracle: the external capability always errors/times out. -/
def execNone : ChunkDefinition → ExecOutcome := fun _ => .failedRun

/-- Oracle: the external capability always exits 0 having deposited nothing. -/
def execEmptyOk : ChunkDefinition → ExecOutcome := fun _ => .deposited []

/-- A topological rank for the graph `[chunkA, chunkB]`. -/
def rankAB : String → Nat := fun s => if s = "A" then 0 else 1

/-- A live result with COMPLETED status, for the persistence round-trip. -/
def completedResultA : ChunkResult := { initialResult "A" with status := .completed }

/-! ## Claim theorems -/

/-- C10: for every chunk on which recovery is attempted (retry counter below
the cap), after the recovery attempt returns, the retry counter stored in the
chunk's slot equals 0 — the in-place increment is discarded because the
retry's freshly created `ChunkResult` (whose `retry_count` defaults to 0)
overwrites the stored result. -/
theorem c10_retry_counter_reset (exec : ChunkDefinition → ExecOutcome)
    (st : ResultMap) (chunk : ChunkDefinition)
    (h : (st chunk.chunk_id).retry_count < 2) :
    ((attempt_chunk_recovery exec st chunk).1 chunk.chunk_id).retry_count = 0 := by
  rw [attempt_chunk_recovery_store exec st chunk h, generate_single_chunk_retry]

/-- Witness for C10: recovery on a failed chunk `A` (stored retry count 0)
leaves a stored retry count of 0. -/
theorem c10_retry_counter_reset_witness :
    ((attempt_chunk_recovery execNone
        (initialResults.set "A" { initialResult "A" with status := .failed })
        chunkA).1 "A").retry_count = 0 :=
  c10_retry_counter_reset execNone
    (initialResults.set "A" { initialResult "A" with status := .failed }) chunkA
    (by decide)

/-- C6: the save/load round-trip the claim describes does not exist in the
code.  For every state holding at least one chunk result — which every real
run does from initialisation on — the per-entry `asdict(result)` at line 772
is applied to values that `asdict(state)` at line 762 already converted to
plain dicts, so it raises the dataclass `TypeError`; the handler at line 778
swallows it and NO snapshot is ever written, leaving `_load_state` (and the
resume path, which requires the state file to exist) nothing produced to
reconstruct a state from — equivalent or otherwise.  The empty-mapping case
succeeds, isolating the failure to exactly the per-entry re-conversion. -/
theorem c6_snapshot_never_written (results : List (String × ChunkResult)) :
    (results ≠ [] →
      save_state_entries (asdict_state_results results) = .error asdict_type_error ∧
      save_state results = none) ∧
    save_state [] = some [] := by
  refine ⟨fun h => ?_, rfl⟩
  obtain ⟨p, rest, rfl⟩ : ∃ p rest, results = p :: rest := by
    cases results with
    | nil => exact absurd rfl h
    | cons p rest => exact ⟨p, rest, rfl⟩
  exact ⟨rfl, rfl⟩

/-- Witness for C6: saving a state with the single COMPLETED result for chunk
`A` writes no snapshot. -/
theorem c6_snapshot_never_written_witness :
    save_state [("A", completedResultA)] = none :=
  ((c6_snapshot_never_written [("A", completedResultA)]).1 (by decide)).2

/-- C5 (amended): the fallback is invoked exactly when the external capability
exits nonzero, times out or raises; a run that exits successfully is taken at
face value, so depositing no artifacts does NOT trigger the fallback — the
chunk instead fails validation (`"No files generated for chunk …"`) and is
reported FAILED. -/
theorem c5_fallback_conditions (exec : ChunkDefinition → ExecOutcome)
    (chunk : ChunkDefinition) :
    (exec chunk = .failedRun →
      execute_chunk_generation exec chunk = fallback_chunk_generation chunk) ∧
    (∀ files, exec chunk = .deposited files →
      execute_chunk_generation exec chunk = files) ∧
    (exec chunk = .deposited [] →
      (generate_single_chunk exec chunk).status = .failed ∧
      (generate_single_chunk exec chunk).files_generated = [] ∧
      (generate_single_chunk exec chunk).error_message =
        some ("No files generated for chunk " ++ chunk.chunk_id)) := by
  refine ⟨fun h => ?_, fun files h => ?_, fun h => ?_⟩
  · rw [execute_chunk_generation, h]
  · rw [execute_chunk_generation, h]
  · have he : execute_chunk_generation exec chunk = [] := by
      rw [execute_chunk_generation, h]
    rw [generate_single_chunk, he]
    exact ⟨rfl, rfl, rfl⟩

/-- Witness for C5: the always-failing oracle routes through the fallback;
the exits-0-with-nothing oracle produces a FAILED chunk. -/
theorem c5_fallback_conditions_witness :
    execute_chunk_generation execNone chunkZ = fallback_chunk_generation chunkZ ∧
    (generate_single_chunk execEmptyOk chunkZ).status = .failed :=
  ⟨(c5_fallback_conditions execNone chunkZ).1 rfl,
   ((c5_fallback_conditions execEmptyOk chunkZ).2.2 rfl).1⟩

/-- Counterexample for C5 as stated: the external capability exits
successfully but deposits no artifacts; the chunk is reported FAILED with an
empty file list even though the fallback would have synthesized a stub. -/
theorem c5_counterexample :
    (generate_single_chunk execEmptyOk chunkZ).status = .failed ∧
    (generate_single_chunk execEmptyOk chunkZ).files_generated = [] ∧
    fallback_chunk_generation chunkZ = ["Z/z.py"] := by
  decide

/-- C9 (amended): fallback synthesis produces exactly one stub per declared
NON-DIRECTORY artifact name and never raises; a chunk with at least one
declared file entry is recorded COMPLETED after fallback, but a chunk whose
declared list holds only directory entries (or nothing) gets an empty
fallback and is recorded FAILED by the empty-file-list validation. -/
theorem c9_fallback_properties (chunk : ChunkDefinition) :
    (∀ f ∈ chunk.files_to_generate, endsWithSlash f = false →
      (chunk.chunk_id ++ "/" ++ f) ∈ fallback_chunk_generation chunk) ∧
    ((∃ f, f ∈ chunk.files_to_generate ∧ endsWithSlash f = false) →
      ∀ exec : ChunkDefinition → ExecOutcome, exec chunk = .failedRun →
        (generate_single_chunk exec chunk).status = .completed) ∧
    ((∀ f ∈ chunk.files_to_generate, endsWithSlash f = true) →
      fallback_chunk_generation chunk = [] ∧
      ∀ exec : ChunkDefinition → ExecOutcome, exec chunk = .failedRun →
        (generate_single_chunk exec chunk).status = .failed) := by
  refine ⟨fun f hf hnd => ?_, fun hex exec hexec => ?_, fun hall => ⟨?_, fun exec hexec => ?_⟩⟩
  · rw [fallback_chunk_generation]
    refine List.mem_map.mpr ⟨f, ?_, rfl⟩
    rw [List.mem_filter]
    exact ⟨hf, by rw [hnd]; rfl⟩
  · obtain ⟨f, hf, hnd⟩ := hex
    have he : execute_chunk_generation exec chunk = fallback_chunk_generation chunk := by
      rw [execute_chunk_generation, hexec]
    rw [generate_single_chunk_completed_iff, he]
    intro hempty
    have hmem : (chunk.chunk_id ++ "/" ++ f) ∈ fallback_chunk_generation chunk := by
      rw [fallback_chunk_generation]
      refine List.mem_map.mpr ⟨f, ?_, rfl⟩
      rw [List.mem_filter]
      exact ⟨hf, by rw [hnd]; rfl⟩
    rw [List.isEmpty_iff] at hempty
    rw [hempty] at hmem
    cases hmem
  · rw [fallback_chunk_generation]
    have hfil : chunk.files_to_generate.filter (fun f => !endsWithSlash f) = [] := by
      rw [List.filter_eq_nil_iff]
      intro f hf
      rw [hall f hf]
      intro hx
      cases hx
    rw [hfil, List.map_nil]
  · have hfil : chunk.files_to_generate.filter (fun f => !endsWithSlash f) = [] := by
      rw [List.filter_eq_nil_iff]
      intro f hf
      rw [hall f hf]
      intro hx
      cases hx
    have he2 : execute_chunk_generation exec chunk = fallback_chunk_generation chunk := by
      rw [execute_chunk_generation, hexec]
    have he : execute_chunk_generation exec chunk = [] := by
      rw [he2, fallback_chunk_generation, hfil, List.map_nil]
    rw [generate_single_chunk, he]
    rfl

/-- Witness for C9: `chunkZ` (one declared file) gets a stub and COMPLETED;
`chunkDocs` (directory-only declaration) gets an empty fallback. -/
theorem c9_fallback_properties_witness :
    ("Z" ++ "/" ++ "z.py") ∈ fallback_chunk_generation chunkZ ∧
    (generate_single_chunk execNone chunkZ).status = .completed ∧
    fallback_chunk_generation chunkDocs = [] := by
  have h := c9_fallback_properties chunkZ
  have h2 := c9_fallback_properties chunkDocs
  exact ⟨h.1 "z.py" (by decide) (by decide),
    h.2.1 ⟨"z.py", by decide, by decide⟩ execNone rfl,
    (h2.2.2 (by decide)).1⟩

/-- Counterexample for C9 as stated: a chunk declaring only `docs/` gets no
artifact for that declared name from the fallback, and the chunk that used the
fallback is recorded FAILED, not COMPLETED. -/
theorem c9_counterexample :
    chunkDocs.files_to_generate = ["docs/"] ∧
    fallback_chunk_generation chunkDocs = [] ∧
    (generate_single_chunk execNone chunkDocs).status = .failed := by
  decide

/-- C8 (amended): each wave's batch is the first `P` chunks of the ready set
in DECLARATION order (the code never sorts by priority): the batch has length
at most `P`, is a sublist of the declaration order, contains only ready
chunks, and the configured default for `P` is 3. -/
theorem c8_batch_selection (chunks : List ChunkDefinition) (done : List String)
    (P : Nat) :
    ((ready_chunks chunks done).take P).length ≤ P ∧
    List.Sublist ((ready_chunks chunks done).take P) chunks ∧
    (∀ c ∈ (ready_chunks chunks done).take P,
      c.chunk_id ∉ done ∧ ∀ d ∈ c.dependencies, d ∈ done) ∧
    max_parallel_default = 3 := by
  refine ⟨?_, ?_, fun c hc => ?_, rfl⟩
  · rw [List.length_take]
    exact min_le_left P _
  · exact List.Sublist.trans (List.take_sublist P _) (ready_chunks_sublist chunks done)
  · have := (ready_chunks_mem chunks done c).mp (List.take_subset P _ hc)
    exact ⟨this.2.1, this.2.2⟩

/-- Witness for C8: the amended selection facts at a concrete two-chunk ready
set with `P = 1`. -/
theorem c8_batch_selection_witness :
    ((ready_chunks [chunkP1, chunkP2] []).take 1).length ≤ 1 ∧
    max_parallel_default = 3 :=
  ⟨(c8_batch_selection [chunkP1, chunkP2] [] 1).1,
   (c8_batch_selection [chunkP1, chunkP2] [] 1).2.2.2⟩

/-- Counterexample for C8 as stated: with two ready chunks where the
second-declared has the more urgent priority and `P = 1`, the code dispatches
the first-declared chunk, not the priority-ordered choice. -/
theorem c8_counterexample :
    (ready_chunks [chunkP1, chunkP2] []).take 1 = [chunkP1] ∧
    spec_select_batch [chunkP1, chunkP2] [] 1 = [chunkP2] ∧
    chunkP2.priority < chunkP1.priority := by
  decide

/-- Numeric value of a complexity tier: `"high"` 2, `"medium"` 1, anything
else (in particular `"low"`) 0. -/
def complexityRank (c : String) : Nat :=
  if c = "high" then 2 else if c = "medium" then 1 else 0

/-- The recovery redefinition moves the complexity down exactly one tier
(`high → medium`, `medium → low`), with `low` already at the floor. -/
theorem complexityRank_reduce (c : String) :
    complexityRank (reduceComplexity c) = complexityRank c - 1 := by
  by_cases h : c = "high"
  · simp [reduceComplexity, complexityRank, h]
  · by_cases h2 : c = "medium" <;> simp [reduceComplexity, complexityRank, h, h2]

/-- C4: every recovery retry runs a reduced-scope redefinition of the chunk —
estimated size at most half the original, at most two of the originally
declared artifacts (a prefix of the original list), complexity down one tier
(with `low` as the floor) — a retry is only ever executed while the stored
retry counter is below 2, and throughout the run (at every wave boundary and
in the final report) no stored retry counter exceeds 2. -/
theorem c4_recovery_reduction_policy :
    (∀ chunk : ChunkDefinition,
      2 * (simplify_chunk chunk).estimated_lines ≤ chunk.estimated_lines ∧
      (simplify_chunk chunk).files_to_generate.length ≤ 2 ∧
      List.Sublist (simplify_chunk chunk).files_to_generate chunk.files_to_generate ∧
      complexityRank (simplify_chunk chunk).complexity =
        complexityRank chunk.complexity - 1) ∧
    (∀ (exec : ChunkDefinition → ExecOutcome) (st : ResultMap) (chunk : ChunkDefinition),
      2 ≤ (st chunk.chunk_id).retry_count →
      attempt_chunk_recovery exec st chunk = (st, false)) ∧
    (∀ (exec : ChunkDefinition → ExecOutcome) (P : Nat)
      (chunks : List ChunkDefinition) (fuel : Nat) (id : String),
      (((generate_chunks_ordered exec P chunks fuel [] initState).state).results id).retry_count ≤ 2) ∧
    (∀ (exec : ChunkDefinition → ExecOutcome) (P : Nat)
      (chunks : List ChunkDefinition) (id : String),
      ((generate_project exec P chunks).results id).retry_count ≤ 2) := by
  refine ⟨fun chunk => ⟨?_, ?_, ?_, ?_⟩, ?_, ?_, ?_⟩
  · show 2 * (chunk.estimated_lines / 2) ≤ chunk.estimated_lines
    omega
  · show (chunk.files_to_generate.take 2).length ≤ 2
    rw [List.length_take]
    exact min_le_left 2 _
  · exact List.take_sublist 2 chunk.files_to_generate
  · exact complexityRank_reduce chunk.complexity
  · exact fun exec st chunk h => attempt_chunk_recovery_capped exec st chunk h
  · exact fun exec P chunks fuel id =>
      loop_retry_le exec P chunks fuel [] initState (fun x => Nat.zero_le 2) id
  · intro exec P chunks id
    have hle := loop_retry_le exec P chunks chunks.length [] initState
      (fun x => Nat.zero_le 2)
    rcases hcase : generate_chunks_ordered exec P chunks chunks.length [] initState
        with st | st | st
    · rw [generate_project_of_finished exec P chunks st hcase]
      have h2 := hle id
      rw [hcase] at h2
      exact h2
    · rw [generate_project_of_cyclic exec P chunks st hcase]
      show ((st.results.set _ _) id).retry_count ≤ 2
      rw [ResultMap.get_set]
      split
      · exact Nat.zero_le 2
      · have h2 := hle id
        rw [hcase] at h2
        exact h2
    · rw [generate_project_of_fuelOut exec P chunks st hcase]
      have h2 := hle id
      rw [hcase] at h2
      exact h2

/-- Witness for C4: the reduction facts at a concrete chunk, and the cap
refusing recovery at a stored retry count of 2. -/
theorem c4_recovery_reduction_policy_witness :
    2 * (simplify_chunk chunkZ).estimated_lines ≤ chunkZ.estimated_lines ∧
    attempt_chunk_recovery execNone
        (initialResults.set "A" { initialResult "A" with status := .failed, retry_count := 2 })
        chunkA =
      (initialResults.set "A" { initialResult "A" with status := .failed, retry_count := 2 },
        false) ∧
    ((generate_project execAB 3 [chunkA, chunkB]).results "A").retry_count ≤ 2 :=
  ⟨(c4_recovery_reduction_policy.1 chunkZ).1,
   c4_recovery_reduction_policy.2.1 execNone _ chunkA (by decide),
   c4_recovery_reduction_policy.2.2.2 execAB 3 [chunkA, chunkB] "A"⟩

/-- C2 (amended): whenever the wave loop stalls it raises a generic exception
whose fixed, id-free text is `"Circular dependency detected in chunks"`, and
`generate_project` always catches it rather than letting it reach the caller:
the state is returned with a FAILED result bearing that message recorded
under `state.current_chunk or "unknown"` — a chunk-result mutation beyond the
report.  On a graph with no ready chunk at the first wave (such as the
two-cycle X⇄Y) nothing has been dispatched, the key is `"unknown"`, and every
graph chunk stays PENDING; on a cyclic graph with an acyclic prefix (W, then
X⇄Y) the prefix is dispatched first and the FAILED entry lands under the last
current chunk's id, here overwriting `W`'s COMPLETED result, while the cycle
members stay PENDING. -/
theorem c2_cycle_behavior (exec : ChunkDefinition → ExecOutcome) (P : Nat)
    (chunks : List ChunkDefinition)
    (h0 : chunks ≠ [])
    (hready : ready_chunks chunks [] = [])
    (hunk : ∀ c ∈ chunks, c.chunk_id ≠ "unknown") :
    (∀ (exec2 : ChunkDefinition → ExecOutcome) (P2 : Nat)
      (chunks2 : List ChunkDefinition) (st : GenState),
      generate_chunks_ordered exec2 P2 chunks2 chunks2.length [] initState = .cyclic st →
      generate_project exec2 P2 chunks2 =
        { st with
          results := st.results.set (st.current_chunk.getD "unknown")
            (exception_result (st.current_chunk.getD "unknown")) }) ∧
    (generate_chunks_ordered exec P chunks chunks.length [] initState).isCyclic = true ∧
    (∀ c ∈ chunks,
      ((generate_project exec P chunks).results c.chunk_id).status = .pending) ∧
    (generate_project exec P chunks).results "unknown" = exception_result "unknown" ∧
    (generate_chunks_ordered execFailA 3 [chunkW, chunkX, chunkY]
      [chunkW, chunkX, chunkY].length [] initState).isCyclic = true ∧
    (generate_project execFailA 3 [chunkW, chunkX, chunkY]).results "W" =
      exception_result "W" ∧
    ((generate_project execFailA 3 [chunkW, chunkX, chunkY]).results "X").status =
      .pending := by
  obtain ⟨m, hm⟩ : ∃ m, chunks.length = m + 1 :=
    ⟨chunks.length - 1, by have := List.length_pos.mpr h0; omega⟩
  have hloop : generate_chunks_ordered exec P chunks chunks.length [] initState =
      .cyclic initState := by
    rw [hm, generate_chunks_ordered,
      if_pos (by simpa using List.length_pos.mpr h0),
      if_pos (by rw [hready]; rfl)]
  have hgp := generate_project_of_cyclic exec P chunks initState hloop
  refine ⟨fun exec2 P2 chunks2 st h => generate_project_of_cyclic exec2 P2 chunks2 st h,
    by rw [hloop]; rfl, fun c hc => ?_, ?_, by decide, by decide, by decide⟩
  · rw [hgp]
    show ((initState.results.set "unknown" (exception_result "unknown")) c.chunk_id).status =
      .pending
    rw [ResultMap.get_set, if_neg (hunk c hc)]
    rfl
  · rw [hgp]
    show (initState.results.set "unknown" (exception_result "unknown")) "unknown" =
      exception_result "unknown"
    rw [ResultMap.get_set, if_pos rfl]

/-- Witness for C2 (amended) at the X⇄Y two-cycle, with the prefixed cycle
W, X⇄Y exercised as well. -/
theorem c2_cycle_behavior_witness :
    (generate_chunks_ordered execNone 3 [chunkX, chunkY]
      [chunkX, chunkY].length [] initState).isCyclic = true ∧
    (generate_project execNone 3 [chunkX, chunkY]).results "unknown" =
      exception_result "unknown" ∧
    (generate_project execFailA 3 [chunkW, chunkX, chunkY]).results "W" =
      exception_result "W" := by
  have h := c2_cycle_behavior execNone 3 [chunkX, chunkY] (by decide) (by decide)
    (by decide)
  exact ⟨h.2.1, h.2.2.2.1, h.2.2.2.2.2.1⟩

/-- Counterexample for C2 as stated: on the X⇄Y cycle, the returned state has
gained a FAILED result entry (key `"unknown"`) — a chunk-result mutation
beyond the report — and the raised message, the fixed string
`"Circular dependency detected in chunks"`, names neither stalled id (no
character of either id occurs in it). -/
theorem c2_counterexample :
    ((generate_project execNone 3 [chunkX, chunkY]).results "unknown").status = .failed ∧
    ((generate_project execNone 3 [chunkX, chunkY]).results "unknown").error_message =
      some circular_dependency_message ∧
    ((generate_project execNone 3 [chunkX, chunkY]).results "X").status = .pending ∧
    ((generate_project execNone 3 [chunkX, chunkY]).results "Y").status = .pending ∧
    'X' ∉ circular_dependency_message.data ∧
    'Y' ∉ circular_dependency_message.data := by
  decide

/-- C3 (amended): when a chunk is finalized FAILED, `_skip_dependent_chunks`
marks SKIPPED exactly the still-PENDING chunks that DIRECTLY list the failed
chunk among their dependencies; chunks that depend on it only transitively
(and every non-PENDING slot) are left completely unchanged. -/
theorem c3_skip_direct_only (st : ResultMap) (failedId : String)
    (all : List ChunkDefinition)
    (hnd : (all.map ChunkDefinition.chunk_id).Nodup) :
    (∀ c ∈ all, failedId ∈ c.dependencies → (st c.chunk_id).status = .pending →
      ((skip_dependent_chunks st failedId all) c.chunk_id).status = .skipped) ∧
    (∀ id, (∀ c ∈ all, c.chunk_id = id → failedId ∉ c.dependencies) →
      (skip_dependent_chunks st failedId all) id = st id) ∧
    (∀ id, (st id).status ≠ .pending →
      (skip_dependent_chunks st failedId all) id = st id) :=
  ⟨fun c hc hdep hp => skip_dependent_chunks_direct failedId all st c hnd hc hdep hp,
   fun id h => skip_dependent_chunks_not_direct failedId all st id h,
   fun id h => skip_dependent_chunks_nonpending failedId all st id h⟩

/-- Witness for C3 (amended): with A failed, the direct dependent B is
skipped while the transitive dependent C keeps its slot unchanged. -/
theorem c3_skip_direct_only_witness :
    ((skip_dependent_chunks initialResults "A" [chunkA, chunkB, chunkC]) "B").status =
      .skipped ∧
    (skip_dependent_chunks initialResults "A" [chunkA, chunkB, chunkC]) "C" =
      initialResults "C" := by
  have h := c3_skip_direct_only initialResults "A" [chunkA, chunkB, chunkC] (by decide)
  exact ⟨h.1 chunkB (by decide) (by decide) (by decide),
    h.2.1 "C" (by decide)⟩

/-- Counterexample for C3 as stated: in the chain A ← B ← C, after the wave in
which A is finalized FAILED, the direct dependent B is SKIPPED but the
transitive dependent C — although in A's dependent closure and still
PENDING — is NOT marked SKIPPED. -/
theorem c3_counterexample :
    (((generate_chunks_ordered execFailA 3 [chunkA, chunkB, chunkC] 1 []
        initState).state).results "A").status = .failed ∧
    (((generate_chunks_ordered execFailA 3 [chunkA, chunkB, chunkC] 1 []
        initState).state).results "B").status = .skipped ∧
    (((generate_chunks_ordered execFailA 3 [chunkA, chunkB, chunkC] 1 []
        initState).state).results "C").status = .pending ∧
    "A" ∈ chunkB.dependencies ∧ "B" ∈ chunkC.dependencies := by
  decide

/-- C1: the code contradicts the claim's (and the spec's) skip semantics.  On
the graph where B depends on A, A's generation and recovery both fail: after
the first wave B is marked SKIPPED, but skipped chunks are never added to
`completed_chunks`, so B counts as ready in the next wave, is dispatched
anyway, and its SKIPPED status is overwritten — the run ends with B
COMPLETED (the claim requires B to end SKIPPED and never be dispatched). -/
theorem c1_skipped_chunk_redispatched :
    (((generate_chunks_ordered execAB 3 [chunkA, chunkB] 1 []
        initState).state).results "B").status = .skipped ∧
    (generate_chunks_ordered execAB 3 [chunkA, chunkB] 1 [] initState).isFuelOut = true ∧
    ((generate_project execAB 3 [chunkA, chunkB]).results "A").status = .failed ∧
    ((generate_project execAB 3 [chunkA, chunkB]).results "B").status = .completed ∧
    ((generate_project execAB 3 [chunkA, chunkB]).results "B").files_generated =
      ["b.py"] := by
  decide

/-- C7: for every acyclic chunk graph (distinct ids, dependencies resolving
inside the graph, acyclicity witnessed by a rank function) and any positive
parallelism bound, the wave loop with fuel `chunks.length` terminates
normally — neither fuel exhaustion nor the cycle exception — and every chunk
ends in a terminal status. -/
theorem c7_scheduler_terminates (exec : ChunkDefinition → ExecOutcome) (P : Nat)
    (chunks : List ChunkDefinition) (rank : String → Nat) (hP : 0 < P)
    (hnd : (chunks.map ChunkDefinition.chunk_id).Nodup)
    (hclosed : ∀ c ∈ chunks, ∀ d ∈ c.dependencies, d ∈ chunks.map ChunkDefinition.chunk_id)
    (hrank : ∀ c ∈ chunks, ∀ d ∈ c.dependencies, rank d < rank c.chunk_id) :
    (generate_chunks_ordered exec P chunks chunks.length [] initState).isFuelOut = false ∧
    (generate_chunks_ordered exec P chunks chunks.length [] initState).isCyclic = false ∧
    ∀ c ∈ chunks,
      (((generate_chunks_ordered exec P chunks chunks.length []
        initState).state).results c.chunk_id).status.isTerminal := by
  obtain ⟨st', heq, hcf⟩ := loop_finishes exec P chunks rank hP hnd hclosed hrank
    chunks.length [] initState (List.nil_subset _) List.nodup_nil
    (fun id hid => absurd hid (List.not_mem_nil id)) (by omega)
  rw [heq]
  refine ⟨rfl, rfl, fun c hc => ?_⟩
  rcases hcf c hc with h | h
  · exact Or.inl h
  · exact Or.inr (Or.inl h)

/-- Witness for C7: the two-chunk graph B-depends-on-A terminates with every
chunk terminal. -/
theorem c7_scheduler_terminates_witness :
    (generate_chunks_ordered execAB 3 [chunkA, chunkB]
      [chunkA, chunkB].length [] initState).isFuelOut = false ∧
    (((generate_chunks_ordered execAB 3 [chunkA, chunkB]
      [chunkA, chunkB].length [] initState).state).results chunkB.chunk_id).status.isTerminal := by
  have h := c7_scheduler_terminates execAB 3 [chunkA, chunkB] rankAB
    (by decide) (by decide) (by decide) (by decide)
  exact ⟨h.1, h.2.2 chunkB (by decide)⟩

end ChunkedGen
